import Mathlib

/-!
Shallow embedding of the request/scope subsystem of `src/request.rs`.

Raw MPI request handles (`MPI_Request`) are modelled as natural numbers with a
distinguished null value (`RSMPI_REQUEST_NULL`).  The MPI transport layer
(`MPI_Wait`, `MPI_Test`, `MPI_Cancel`) is modelled as a record of pure
functions: which handles are persistent, and what status / completion flag the
transport reports for each handle.  Rust panics (fatal programming errors) are
modelled as `none`; in-place mutation of a scope's `RefCell<HashSet>` is
modelled by explicit state passing over `Finset Nat`.  Destructor sequencing is
recorded as a list of `Event`s, mirroring Rust drop order (drop body first,
then the fields' own destructors).
-/

namespace Rsmpi

/-- Model of `ffi::RSMPI_REQUEST_NULL`, the distinguished null handle. -/
def nullRequest : Nat := 0

/-- Source: `fn is_null(request: MPI_Request) -> bool { request == RSMPI_REQUEST_NULL }` -/
def is_null (request : Nat) : Bool := request == nullRequest

/-- Model of `point_to_point::Status`, an opaque wrapper around `MPI_Status`
(the raw status itself is opaque; we model it as a number). -/
structure Status where
  raw : Nat
  deriving DecidableEq, Repr

/-- Source: `Status::from_raw` -/
def Status.from_raw (status : Nat) : Status := ⟨status⟩

/-- The MPI transport layer, as seen through `ffi::MPI_Wait` / `ffi::MPI_Test`:
for each handle, whether it is a persistent request (persistent handles are not
set to null on completion), the status a wait would produce, whether a test
reports the operation complete, and the status a successful test produces. -/
structure Transport where
  persistent : Nat → Bool
  waitStatus : Nat → Nat
  testFlag : Nat → Bool
  testStatus : Nat → Nat

/-- Source: `ffi::MPI_Wait(&mut request, status)`: blocks until done, writes the status
out-parameter, and sets the passed-in handle to null — except for persistent
requests, whose handle survives completion.  Returns (new handle value, status
written). -/
def MPI_Wait (t : Transport) (request : Nat) : Nat × Nat :=
  (if t.persistent request then request else nullRequest, t.waitStatus request)

/-- Source: `ffi::MPI_Test(&mut request, &mut flag, &mut status)`: single poll.  If the
transport reports completion the flag is set and the handle is nulled (unless
persistent); otherwise the handle is left untouched.  Returns (new handle
value, flag, status written). -/
def MPI_Test (t : Transport) (request : Nat) : Nat × Bool × Nat :=
  if t.testFlag request then
    ((if t.persistent request then request else nullRequest), true, t.testStatus request)
  else
    (request, false, 0)

/-- Destructor-time actions issued to the transport / scope, in program order.
`MPI_Cancel` has no modelled state effect (best-effort), so it appears only as
an event. -/
inductive Event where
  | cancelEv (request : Nat)
  | waitEv (request : Nat)
  | unregisterEv (request : Nat)
  deriving DecidableEq, Repr

/-- The `Scope` trait: `register` / `unregister` as state transformers over the
scope's tracked-handle state `σ`; `none` models the fatal `panic!`. -/
structure ScopeOps (σ : Type) where
  register : Nat → σ → Option σ
  unregister : Nat → σ → Option σ

/-- Source: `impl Scope for StaticScope`: both operations are no-ops that always
succeed (`StaticScope` keeps no bookkeeping). -/
def staticScopeOps : ScopeOps Unit :=
  { register := fun _ s => some s
    unregister := fun _ s => some s }

/-- Source: `impl Scope for &LocalScope`: the tracked set is `requests:
RefCell<HashSet<MPI_Request>>`.  `register` panics (`none`) if the handle is
already in the set (`HashSet::insert` returned false); `unregister` panics if
the handle is not in the set (`HashSet::remove` returned false). -/
def localScopeOps : ScopeOps (Finset Nat) :=
  { register := fun request s =>
      if request ∈ s then none else some (insert request s)
    unregister := fun request s =>
      if request ∈ s then some (s.erase request) else none }

/-- Source: `struct WaitGuard<'a, S: Scope<'a>> { request: MPI_Request, scope: S, .. }`.
The `scope` field is the scope value/reference itself (its identity); the
scope's mutable tracked-set state is threaded separately. -/
structure WaitGuard (S : Type) where
  request : Nat
  scope : S
  deriving DecidableEq, Repr

/-- Source: `WaitGuard::as_raw` -/
def WaitGuard.as_raw (g : WaitGuard S) : Nat := g.request

/-- Source: `WaitGuard::from_raw(request, scope)`: `debug_assert!(!is_null(request))`
(fatal on a null handle), then `scope.register(request)` (which may itself be
fatal), then builds the guard. -/
def WaitGuard.from_raw (ops : ScopeOps σ) (request : Nat) (scope : S) (s : σ) :
    Option (WaitGuard S × σ) :=
  if is_null request then none
  else (ops.register request s).map (fun s2 => (⟨request, scope⟩, s2))

/-- Source: `WaitGuard::into_raw`: unregisters the guard's handle from its scope and
yields back the raw (handle, scope) pair, without waiting. -/
def WaitGuard.into_raw (ops : ScopeOps σ) (g : WaitGuard S) (s : σ) :
    Option ((Nat × S) × σ) :=
  (ops.unregister g.as_raw s).map (fun s2 => ((g.as_raw, g.scope), s2))

/-- Source: `WaitGuard::raw_wait(status)`: copies the stored handle into a local
(`let mut request = self.as_raw()`), calls `MPI_Wait` on the local copy, then
`assert!(is_null(request))` — fatal (`none`) if the handle did not become null
(persistent requests are unsupported).  Returns (local handle value after the
wait, status produced). -/
def WaitGuard.raw_wait (t : Transport) (g : WaitGuard S) : Option (Nat × Nat) :=
  let request := g.as_raw
  let r2 := MPI_Wait t request
  if is_null r2.1 then some r2 else none

/-- Source: `WaitGuard::cancel`: copies the handle into a local and issues
`MPI_Cancel` on it; best-effort, no modelled state change. -/
def WaitGuard.cancel (g : WaitGuard S) : Event := Event.cancelEv g.as_raw

/-- Source: `impl Drop for WaitGuard`: `raw_wait(None)` then
`scope.unregister(&self.as_raw())`.  Returns the scope state after the drop
(`none` on a fatal error) and the events issued in order. -/
def WaitGuard.dropRun (t : Transport) (ops : ScopeOps σ) (g : WaitGuard S) (s : σ) :
    Option σ × List Event :=
  match WaitGuard.raw_wait t g with
  | none => (none, [Event.waitEv g.as_raw])
  | some _ =>
      (ops.unregister g.as_raw s, [Event.waitEv g.as_raw, Event.unregisterEv g.as_raw])

/-- Source: `struct Request<'a, S>(WaitGuard<'a, S>)` -/
structure Request (S : Type) where
  guard : WaitGuard S
  deriving DecidableEq, Repr

/-- Source: `Request::as_raw` -/
def Request.as_raw (r : Request S) : Nat := r.guard.as_raw

/-- Source: `impl Drop for Request`: `panic!("request was dropped without being
completed")` — unconditionally fatal. -/
def Request.dropRun (_ : Request S) : Option Unit := none

/-- Source: `impl From<WaitGuard> for Request` -/
def Request.fromWaitGuard (g : WaitGuard S) : Request S := ⟨g⟩

/-- Source: `impl From<Request> for WaitGuard`: moves the inner guard out
(`mem::replace` + `mem::forget(req)`), so `Request`'s `Drop` never runs. -/
def WaitGuard.fromRequest (r : Request S) : WaitGuard S := r.guard

/-- Source: `struct CancelGuard<'a, S>(WaitGuard<'a, S>)` -/
structure CancelGuard (S : Type) where
  guard : WaitGuard S
  deriving DecidableEq, Repr

/-- Source: `impl From<Request> for CancelGuard` -/
def CancelGuard.fromRequest (r : Request S) : CancelGuard S :=
  ⟨WaitGuard.fromRequest r⟩

/-- Source: `impl From<CancelGuard> for Request`: moves the inner guard out without
running `CancelGuard`'s `Drop` (`mem::replace` + `mem::forget`). -/
def Request.fromCancelGuard (g : CancelGuard S) : Request S := ⟨g.guard⟩

/-- Source: `impl Drop for CancelGuard`: the drop body runs `self.0.cancel()`, and then
Rust drops the inner `WaitGuard` field, which waits and unregisters. -/
def CancelGuard.dropRun (t : Transport) (ops : ScopeOps σ) (g : CancelGuard S) (s : σ) :
    Option σ × List Event :=
  let inner := WaitGuard.dropRun t ops g.guard s
  (inner.1, WaitGuard.cancel g.guard :: inner.2)

/-- Source: `Request::from_raw(request, scope)` -/
def Request.from_raw (ops : ScopeOps σ) (request : Nat) (scope : S) (s : σ) :
    Option (Request S × σ) :=
  (WaitGuard.from_raw ops request scope s).map (fun p => (⟨p.1⟩, p.2))

/-- Source: `Request::into_raw`: `WaitGuard::from(self).into_raw()`. -/
def Request.into_raw (ops : ScopeOps σ) (r : Request S) (s : σ) :
    Option ((Nat × S) × σ) :=
  WaitGuard.into_raw ops (WaitGuard.fromRequest r) s

/-- Source: `Request::wait`: `raw_wait(Some(&mut status))`, then `into_raw` (which
unregisters from the scope), then `Status::from_raw(status)`.  Returns the
status and the scope state after unregistration; `none` models the fatal
panics (post-wait null assertion, unregister of an untracked handle). -/
def Request.wait (t : Transport) (ops : ScopeOps σ) (r : Request S) (s : σ) :
    Option (Status × σ) :=
  match WaitGuard.raw_wait t r.guard with
  | none => none
  | some r2 =>
      match Request.into_raw ops r s with
      | none => none
      | some (_, s2) => some (Status.from_raw r2.2, s2)

/-- Source: `Request::wait_without_status`: `raw_wait(None)` then `into_raw`. -/
def Request.wait_without_status (t : Transport) (ops : ScopeOps σ) (r : Request S) (s : σ) :
    Option σ :=
  match WaitGuard.raw_wait t r.guard with
  | none => none
  | some _ =>
      match Request.into_raw ops r s with
      | none => none
      | some (_, s2) => some s2

/-- Source: `Request::test`: copies the handle into a local, calls `MPI_Test` on the
copy; if the flag is set, `assert!(is_null(request))` then `into_raw`
(unregister) and `Ok(Status)`; otherwise `Err(self)` — the request is handed
back untouched, with the scope state unchanged. -/
def Request.test (t : Transport) (ops : ScopeOps σ) (r : Request S) (s : σ) :
    Option ((Status ⊕ Request S) × σ) :=
  let request := r.as_raw
  let out := MPI_Test t request
  if out.2.1 then
    if is_null out.1 then
      match Request.into_raw ops r s with
      | none => none
      | some (_, s2) => some (Sum.inl (Status.from_raw out.2.2), s2)
    else none
  else some (Sum.inr r, s)

/-- Source: `Request::cancel`: forwards to the guard's best-effort `cancel`; does not
consume or complete the request. -/
def Request.cancel (r : Request S) : Event := WaitGuard.cancel r.guard

/-- Source: `Request::shrink_scope_to(scope)`: `into_raw` on the old scope (unregister,
no wait) followed by `from_raw` on the new scope (register). -/
def Request.shrink_scope_to (ops1 : ScopeOps σ1) (ops2 : ScopeOps σ2)
    (r : Request S) (scope : S2) (s1 : σ1) (s2 : σ2) :
    Option (Request S2 × σ1 × σ2) :=
  match Request.into_raw ops1 r s1 with
  | none => none
  | some ((request, _), s1') =>
      match Request.from_raw ops2 request scope s2 with
      | none => none
      | some (r2, s2') => some (r2, s1', s2')

/-- One iteration of `LocalScope::drop`'s loop:
`let _ = WaitGuard::from_raw(request, StaticScope)` constructs a guard against
the throwaway `StaticScope` and immediately drops it (wait + no-op
unregister).  `none` models a panic in either step. -/
def forceComplete (t : Transport) (request : Nat) : Option (List Event) :=
  match WaitGuard.from_raw staticScopeOps request () () with
  | none => none
  | some (g, u) =>
      match WaitGuard.dropRun t staticScopeOps g u with
      | (none, _) => none
      | (some _, evs) => some evs

/-- The iteration of `LocalScope::drop` over the tracked handles, in some
fixed order (a `HashSet`'s order is unspecified; we iterate in sorted order). -/
def sweep (t : Transport) : List Nat → Option (List Event)
  | [] => some []
  | request :: rest =>
      match forceComplete t request, sweep t rest with
      | some evs, some evs2 => some (evs ++ evs2)
      | _, _ => none

/-- Source: `impl Drop for LocalScope`: `for &request in &*self.requests.borrow()`,
force-complete each remaining tracked handle against `StaticScope`; afterwards
the scope (and its set) is deallocated.  Returns the events issued, in order. -/
def LocalScope.dropRun (t : Transport) (s : Finset Nat) : Option (List Event) :=
  sweep t (s.sort (· ≤ ·))

/-- A concrete transport used to exercise the definitions: no handle is
persistent, every wait reports status 7, every test reports completion with
status 9. -/
def tA : Transport :=
  { persistent := fun _ => false
    waitStatus := fun _ => 7
    testFlag := fun _ => true
    testStatus := fun _ => 9 }

/-- C3: for every non-null handle `h` and bounded-scope state `s`, registering
`h` while it is already tracked is fatal, unregistering while untracked is
fatal, after a successful `register` exactly one subsequent `unregister`
succeeds (the next one hits the untracked case), and the global scope's
`register`/`unregister` are no-ops that always succeed.  (The theorem holds
for all handles, null ones included, hence for the non-null ones.) -/
theorem scope_register_unregister_contract (h : Nat) (s : Finset Nat) (hm : h ∉ s) :
    localScopeOps.register h s = some (insert h s) ∧
    localScopeOps.register h (insert h s) = none ∧
    localScopeOps.unregister h (insert h s) = some s ∧
    localScopeOps.unregister h s = none ∧
    staticScopeOps.register h () = some () ∧
    staticScopeOps.unregister h () = some () := by
  refine ⟨?_, ?_, ?_, ?_, rfl, rfl⟩
  · simp [localScopeOps, hm]
  · simp [localScopeOps]
  · simp [localScopeOps, Finset.erase_insert hm]
  · simp [localScopeOps, hm]

/-- Witness for C3 at `h = 5`, `s = ∅`. -/
theorem scope_register_unregister_contract_witness :
    localScopeOps.register 5 (∅ : Finset Nat) = some {5} ∧
    localScopeOps.register 5 (insert 5 (∅ : Finset Nat)) = none ∧
    localScopeOps.unregister 5 (insert 5 (∅ : Finset Nat)) = some ∅ ∧
    localScopeOps.unregister 5 (∅ : Finset Nat) = none ∧
    staticScopeOps.register 5 () = some () ∧
    staticScopeOps.unregister 5 () = some () :=
  scope_register_unregister_contract 5 ∅ (by decide)

/-- C5: converting a `Request` into a `WaitGuard` or `CancelGuard` and back
yields the identical `Request` (same raw handle field, same scope field); the
conversions are pure moves of the inner guard, taking no transport and no
scope state, so nothing is waited on or unregistered. -/
theorem guard_roundtrip_identity (S : Type) (r : Request S) (g : WaitGuard S)
    (c : CancelGuard S) :
    Request.fromWaitGuard (WaitGuard.fromRequest r) = r ∧
    Request.fromCancelGuard (CancelGuard.fromRequest r) = r ∧
    WaitGuard.fromRequest (Request.fromWaitGuard g) = g ∧
    CancelGuard.fromRequest (Request.fromCancelGuard c) = c ∧
    (WaitGuard.fromRequest r).request = r.guard.request ∧
    (WaitGuard.fromRequest r).scope = r.guard.scope ∧
    (CancelGuard.fromRequest r).guard = r.guard :=
  ⟨rfl, rfl, rfl, rfl, rfl, rfl, rfl⟩

/-- C6: dropping a `Request` that was never completed is unconditionally fatal
(`Drop for Request` is an unconditional panic), while completing it (here:
`wait` against the static scope on a non-persistent handle) or downgrading it
to a `WaitGuard`/`CancelGuard` succeeds and never reaches that fallback: the
downgrades are total moves of the inner guard and `wait` consumes the request
without invoking `Request.dropRun`. -/
theorem request_drop_always_fatal (S : Type) (t : Transport) (r : Request S)
    (hp : t.persistent r.guard.request = false) :
    Request.dropRun r = none ∧
    WaitGuard.fromRequest r = r.guard ∧
    (CancelGuard.fromRequest r).guard = r.guard ∧
    (Request.wait t staticScopeOps r ()).isSome = true := by
  refine ⟨rfl, rfl, rfl, ?_⟩
  simp [Request.wait, WaitGuard.raw_wait, MPI_Wait, hp, is_null, Request.into_raw,
    WaitGuard.into_raw, WaitGuard.fromRequest, WaitGuard.as_raw, staticScopeOps,
    nullRequest]

/-- Witness for C6 at a request with handle 5 on the static scope. -/
theorem request_drop_always_fatal_witness :
    Request.dropRun (⟨⟨5, ()⟩⟩ : Request Unit) = none ∧
    WaitGuard.fromRequest (⟨⟨5, ()⟩⟩ : Request Unit) = ⟨5, ()⟩ ∧
    (CancelGuard.fromRequest (⟨⟨5, ()⟩⟩ : Request Unit)).guard = ⟨5, ()⟩ ∧
    (Request.wait tA staticScopeOps (⟨⟨5, ()⟩⟩ : Request Unit) ()).isSome = true :=
  request_drop_always_fatal Unit tA ⟨⟨5, ()⟩⟩ rfl

/-- C1: for a request attached to any scope, once the transport finishes the
operation (`MPI_Wait` returns), `wait` unregisters the handle from the scope
(any scope state `s` on which `unregister` succeeds), consumes the request,
and returns the `CompletionStatus` produced by the wait; the post-wait null
check holds for every non-persistent request — the local handle copy after
`MPI_Wait` is the null handle. -/
theorem wait_completes_unregisters_and_nulls (t : Transport) (σ S : Type)
    (ops : ScopeOps σ) (r : Request S) (s s' : σ)
    (hp : t.persistent r.guard.request = false)
    (hu : ops.unregister r.guard.request s = some s') :
    Request.wait t ops r s = some (Status.from_raw (t.waitStatus r.guard.request), s') ∧
    (MPI_Wait t r.guard.request).1 = nullRequest := by
  constructor
  · simp [Request.wait, WaitGuard.raw_wait, MPI_Wait, hp, is_null, nullRequest,
      Request.into_raw, WaitGuard.into_raw, WaitGuard.fromRequest, WaitGuard.as_raw, hu,
      Status.from_raw]
  · simp [MPI_Wait, hp, nullRequest]

/-- Witness for C1: handle 5 on the static scope under transport `tA`. -/
theorem wait_completes_unregisters_and_nulls_witness :
    Request.wait tA staticScopeOps (⟨⟨5, ()⟩⟩ : Request Unit) () =
      some (Status.from_raw 7, ()) ∧
    (MPI_Wait tA 5).1 = nullRequest :=
  wait_completes_unregisters_and_nulls tA Unit Unit staticScopeOps ⟨⟨5, ()⟩⟩ () () rfl rfl

/-- C2: `test` returns `Ok` exactly when the transport reports the operation
complete.  If the flag is clear, the result is `Err` with the original request
value and the scope state untouched (no partial state).  If the flag is set
(and the handle is non-persistent and unregistration succeeds), the result is
`Ok` with the test's status, the scope state is the unregistered one, and the
local handle copy after `MPI_Test` is null. -/
theorem test_ok_iff_transport_complete (t : Transport) (σ S : Type)
    (ops : ScopeOps σ) (r : Request S) (s s' : σ)
    (hp : t.persistent r.guard.request = false)
    (hu : ops.unregister r.guard.request s = some s') :
    (t.testFlag r.guard.request = false →
       Request.test t ops r s = some (Sum.inr r, s)) ∧
    (t.testFlag r.guard.request = true →
       Request.test t ops r s =
           some (Sum.inl (Status.from_raw (t.testStatus r.guard.request)), s') ∧
       (MPI_Test t r.guard.request).1 = nullRequest) := by
  constructor
  · intro hf
    simp [Request.test, MPI_Test, hf, Request.as_raw, WaitGuard.as_raw]
  · intro hf
    constructor
    · simp [Request.test, MPI_Test, hf, hp, is_null, nullRequest, Request.as_raw,
        Request.into_raw, WaitGuard.into_raw, WaitGuard.fromRequest, WaitGuard.as_raw, hu,
        Status.from_raw]
    · simp [MPI_Test, hf, hp, nullRequest]

/-- Witness for C2: handle 5 on the static scope under transport `tA` (whose
test flag is set for every handle). -/
theorem test_ok_iff_transport_complete_witness :
    (tA.testFlag 5 = false →
       Request.test tA staticScopeOps (⟨⟨5, ()⟩⟩ : Request Unit) () =
         some (Sum.inr ⟨⟨5, ()⟩⟩, ())) ∧
    (tA.testFlag 5 = true →
       Request.test tA staticScopeOps (⟨⟨5, ()⟩⟩ : Request Unit) () =
           some (Sum.inl (Status.from_raw 9), ()) ∧
       (MPI_Test tA 5).1 = nullRequest) :=
  test_ok_iff_transport_complete tA Unit Unit staticScopeOps ⟨⟨5, ()⟩⟩ () () rfl rfl

/-- C7 counterexample: a handle that is already tracked by *another* scope (a
bounded scope whose state is `{5}`) is not refused by the constructor — the
registration check only consults the scope the guard is being constructed
against (here a bounded scope with empty state), so `from_raw` succeeds. -/
theorem from_raw_elsewhere_not_refused_counterexample :
    (5 ∈ ({5} : Finset Nat)) ∧
    Request.from_raw localScopeOps 5 () (∅ : Finset Nat) =
      some (⟨⟨5, ()⟩⟩, {5}) := by
  constructor
  · decide
  · simp [Request.from_raw, WaitGuard.from_raw, localScopeOps, is_null, nullRequest]

/-- C7 (amended): the constructor refuses a null handle and refuses a handle
already registered with the *given* bounded scope, both as fatal errors; on
success the handle is registered with the given scope.  (No check is made
against other scopes.) -/
theorem from_raw_invariant_checks (S : Type) (h : Nat) (sc : S) (s : Finset Nat)
    (hn : is_null h = false) (hm : h ∉ s) :
    Request.from_raw localScopeOps h sc s = some (⟨⟨h, sc⟩⟩, insert h s) ∧
    Request.from_raw localScopeOps h sc (insert h s) = none ∧
    Request.from_raw localScopeOps nullRequest sc s = none := by
  refine ⟨?_, ?_, ?_⟩
  · simp [Request.from_raw, WaitGuard.from_raw, localScopeOps, hn, hm]
  · simp [Request.from_raw, WaitGuard.from_raw, localScopeOps, hn]
  · simp [Request.from_raw, WaitGuard.from_raw, is_null]

/-- Witness for the amended C7 at `h = 5`, `s = ∅`. -/
theorem from_raw_invariant_checks_witness :
    Request.from_raw localScopeOps 5 () (∅ : Finset Nat) =
      some (⟨⟨5, ()⟩⟩, insert 5 ∅) ∧
    Request.from_raw localScopeOps 5 () (insert 5 (∅ : Finset Nat)) = none ∧
    Request.from_raw localScopeOps nullRequest () (∅ : Finset Nat) = none :=
  from_raw_invariant_checks Unit 5 () ∅ rfl (by decide)

/-- C8: dropping a `CancelGuard` (on a non-persistent handle) issues exactly
the sequence best-effort cancel, then blocking wait, then unregistration from
its scope — the cancel event precedes the wait event in every drop — and the
resulting scope state is the one produced by the unregistration. -/
theorem cancel_guard_drop_order (t : Transport) (σ S : Type) (ops : ScopeOps σ)
    (g : CancelGuard S) (s : σ) (hp : t.persistent g.guard.request = false) :
    CancelGuard.dropRun t ops g s =
      (ops.unregister g.guard.request s,
       [Event.cancelEv g.guard.request, Event.waitEv g.guard.request,
        Event.unregisterEv g.guard.request]) := by
  simp [CancelGuard.dropRun, WaitGuard.dropRun, WaitGuard.raw_wait, MPI_Wait, hp,
    is_null, nullRequest, WaitGuard.as_raw, WaitGuard.cancel]

/-- Witness for C8: handle 5 on the static scope under transport `tA`. -/
theorem cancel_guard_drop_order_witness :
    CancelGuard.dropRun tA staticScopeOps (⟨⟨5, ()⟩⟩ : CancelGuard Unit) () =
      (some (), [Event.cancelEv 5, Event.waitEv 5, Event.unregisterEv 5]) :=
  cancel_guard_drop_order tA Unit Unit staticScopeOps ⟨⟨5, ()⟩⟩ () rfl

/-- C9: `shrink_scope_to` moves the handle from one bounded scope to another
without any transport interaction (the function takes no transport at all):
the resulting request carries the same raw handle and the new scope value, the
old scope's state loses exactly that handle, and the new scope's state gains
exactly that handle. -/
theorem shrink_scope_transfers_without_wait (S S2 : Type) (sc2 : S2) (r : Request S)
    (s1 s2 : Finset Nat) (hn : is_null r.guard.request = false)
    (h1 : r.guard.request ∈ s1) (h2 : r.guard.request ∉ s2) :
    Request.shrink_scope_to localScopeOps localScopeOps r sc2 s1 s2 =
      some (⟨⟨r.guard.request, sc2⟩⟩, s1.erase r.guard.request,
            insert r.guard.request s2) := by
  simp [Request.shrink_scope_to, Request.into_raw, WaitGuard.into_raw,
    WaitGuard.fromRequest, WaitGuard.as_raw, localScopeOps, h1, h2,
    Request.from_raw, WaitGuard.from_raw, hn]

/-- Witness for C9: handle 5 moved from a scope tracking `{5}` to one tracking
nothing. -/
theorem shrink_scope_transfers_without_wait_witness :
    Request.shrink_scope_to localScopeOps localScopeOps
        (⟨⟨5, ()⟩⟩ : Request Unit) () {5} (∅ : Finset Nat) =
      some (⟨⟨5, ()⟩⟩, Finset.erase {5} 5, insert 5 ∅) :=
  shrink_scope_transfers_without_wait Unit Unit () ⟨⟨5, ()⟩⟩ {5} ∅ rfl (by decide)
    (by decide)

/-- C10: every completion path hands the transport a local copy of the raw
handle — after `MPI_Wait` that copy is null while the guard still holds the
original handle `h` — and unregistration presents the scope with exactly the
originally registered value: starting from `insert h s0`, each path (`wait`,
`wait_without_status`, a successful `test`, and the guard drop fallback)
leaves the bounded scope's state at exactly `s0`. -/
theorem completion_unregisters_registered_value (t : Transport) (S : Type) (sc : S)
    (h : Nat) (s0 : Finset Nat) (hp : t.persistent h = false)
    (_hn : is_null h = false) (hm : h ∉ s0) :
    (MPI_Wait t h).1 = nullRequest ∧
    Request.wait t localScopeOps ⟨⟨h, sc⟩⟩ (insert h s0) =
      some (Status.from_raw (t.waitStatus h), s0) ∧
    Request.wait_without_status t localScopeOps ⟨⟨h, sc⟩⟩ (insert h s0) = some s0 ∧
    (t.testFlag h = true →
       Request.test t localScopeOps ⟨⟨h, sc⟩⟩ (insert h s0) =
         some (Sum.inl (Status.from_raw (t.testStatus h)), s0)) ∧
    (WaitGuard.dropRun t localScopeOps (⟨h, sc⟩ : WaitGuard S) (insert h s0)).1 =
      some s0 := by
  refine ⟨?_, ?_, ?_, ?_, ?_⟩
  · simp [MPI_Wait, hp, nullRequest]
  · simp [Request.wait, WaitGuard.raw_wait, MPI_Wait, hp, is_null, nullRequest,
      Request.into_raw, WaitGuard.into_raw, WaitGuard.fromRequest, WaitGuard.as_raw,
      localScopeOps, Finset.erase_insert hm, Status.from_raw]
  · simp [Request.wait_without_status, WaitGuard.raw_wait, MPI_Wait, hp, is_null,
      nullRequest, Request.into_raw, WaitGuard.into_raw, WaitGuard.fromRequest,
      WaitGuard.as_raw, localScopeOps, Finset.erase_insert hm]
  · intro hf
    simp [Request.test, MPI_Test, hf, hp, is_null, nullRequest, Request.as_raw,
      Request.into_raw, WaitGuard.into_raw, WaitGuard.fromRequest, WaitGuard.as_raw,
      localScopeOps, Finset.erase_insert hm, Status.from_raw]
  · simp [WaitGuard.dropRun, WaitGuard.raw_wait, MPI_Wait, hp, is_null, nullRequest,
      WaitGuard.as_raw, localScopeOps, Finset.erase_insert hm]

/-- Witness for C10 at `h = 5`, `s0 = ∅`, transport `tA`. -/
theorem completion_unregisters_registered_value_witness :
    (MPI_Wait tA 5).1 = nullRequest ∧
    Request.wait tA localScopeOps (⟨⟨5, ()⟩⟩ : Request Unit) (insert 5 ∅) =
      some (Status.from_raw 7, ∅) ∧
    Request.wait_without_status tA localScopeOps (⟨⟨5, ()⟩⟩ : Request Unit)
      (insert 5 ∅) = some ∅ ∧
    (tA.testFlag 5 = true →
       Request.test tA localScopeOps (⟨⟨5, ()⟩⟩ : Request Unit) (insert 5 ∅) =
         some (Sum.inl (Status.from_raw 9), ∅)) ∧
    (WaitGuard.dropRun tA localScopeOps (⟨5, ()⟩ : WaitGuard Unit) (insert 5 ∅)).1 =
      some ∅ :=
  completion_unregisters_registered_value tA Unit () 5 ∅ rfl rfl (by decide)

/-- One iteration of the scope-exit sweep on a non-null, non-persistent
handle: register with the throwaway `StaticScope` succeeds, the drop waits and
then unregisters, yielding exactly one wait event for that handle. -/
theorem forceComplete_eq (t : Transport) (h : Nat) (hn : is_null h = false)
    (hp : t.persistent h = false) :
    forceComplete t h = some [Event.waitEv h, Event.unregisterEv h] := by
  have hb : (h == nullRequest) = false := hn
  simp [forceComplete, WaitGuard.from_raw, staticScopeOps, WaitGuard.dropRun,
    WaitGuard.raw_wait, MPI_Wait, hp, is_null, WaitGuard.as_raw, hb]

/-- The scope-exit sweep over a list of non-null, non-persistent handles
succeeds and waits on each handle as many times as it occurs in the list. -/
theorem sweep_counts (t : Transport) (l : List Nat)
    (hl : ∀ r ∈ l, is_null r = false ∧ t.persistent r = false) :
    ∃ evs, sweep t l = some evs ∧
      ∀ r, evs.count (Event.waitEv r) = l.count r := by
  induction l with
  | nil => exact ⟨[], rfl, fun r => rfl⟩
  | cons a rest ih =>
      obtain ⟨evs2, h2, hc⟩ := ih (fun r hr => hl r (List.mem_cons_of_mem a hr))
      obtain ⟨hn, hp⟩ := hl a (List.mem_cons_self a rest)
      refine ⟨[Event.waitEv a, Event.unregisterEv a] ++ evs2, ?_, ?_⟩
      · simp [sweep, forceComplete_eq t a hn hp, h2]
      · intro r
        rcases eq_or_ne r a with hra | hra
        · subst hra
          simp [List.count_append, List.count_cons, hc r, Nat.add_comm]
        · simp [List.count_append, List.count_cons, hc r, hra, Ne.symm hra]

/-- C4: when a bounded scope is destroyed with tracked set `s` (all handles
non-null and non-persistent), the sweep succeeds and force-completes each
tracked handle exactly once — the event trace contains exactly one wait event
for every handle in `s` and none for any other handle.  Each per-handle step
goes through the throwaway `StaticScope` (`forceComplete`), and the scope
value itself is consumed by the drop, so no tracked set remains afterwards. -/
theorem scope_drop_completes_each_once (t : Transport) (s : Finset Nat)
    (hs : ∀ r ∈ s, is_null r = false ∧ t.persistent r = false) :
    ∃ evs, LocalScope.dropRun t s = some evs ∧
      ∀ r, evs.count (Event.waitEv r) = (if r ∈ s then 1 else 0) := by
  obtain ⟨evs, h1, h2⟩ :=
    sweep_counts t (s.sort (· ≤ ·))
      (fun r hr => hs r ((Finset.mem_sort (· ≤ ·)).mp hr))
  refine ⟨evs, h1, fun r => ?_⟩
  rw [h2 r]
  rcases em (r ∈ s) with hr | hr
  · rw [if_pos hr]
    exact List.count_eq_one_of_mem (Finset.sort_nodup _ s)
      ((Finset.mem_sort (· ≤ ·)).mpr hr)
  · rw [if_neg hr]
    exact List.count_eq_zero_of_not_mem
      (fun hc => hr ((Finset.mem_sort (· ≤ ·)).mp hc))

/-- Witness for C4 at the tracked set `{3, 5}` under transport `tA`. -/
theorem scope_drop_completes_each_once_witness :
    ∃ evs, LocalScope.dropRun tA {3, 5} = some evs ∧
      ∀ r, evs.count (Event.waitEv r) = (if r ∈ ({3, 5} : Finset Nat) then 1 else 0) :=
  scope_drop_completes_each_once tA {3, 5} (by decide)

end Rsmpi
